import Mathlib

/-!
Verification development for the VSCP4CANToolBox repository.

The repository ships the application bootstrap (`VSCP4CANToolBox.pyw`), the
launcher script (`VSCP4CANToolBox.sh`) and the installation scripts
(`install.sh`, `install.bat`); those are embedded here directly.  The VSCP
protocol engine (frame codec, discovery engine, register and firmware-update
sessions) is described by the specification but its source module (`gui`) is
not part of the shipped files, so those components are modelled from the
specification's own wording, as noted on each definition.
-/

namespace VSCP4CAN

/-! ### Frame codec -/

/-- Error kinds of the frame codec (spec section 4.1). -/
inductive DecodeError
  | MalformedIdentifier
  | PayloadTooLong
deriving DecidableEq, Repr

/-- A semantic VSCP event.  Modelled from the spec: the codec source is not
among the shipped files.  Only the wire-carried fields take part in the
codec round trip: the spec assigns `timestamp` at decode time (never from the
wire) and a single Level I data frame carries the 8-bit nickname, not the
16-byte GUID, so neither field is a codec field here. -/
structure VscpEvent where
  priority : Nat
  class_id : Nat
  type_id : Nat
  node_id : Nat
  payload : List Nat
deriving DecidableEq, Repr

/-- A raw CAN frame: extended-identifier flag, identifier, data bytes. -/
structure RawFrame where
  extended : Bool
  can_id : Nat
  data : List Nat
deriving DecidableEq, Repr

/-- Modelled from the spec: `decode` of the Frame Codec (spec section 4.1),
whose source module is not among the shipped files.  It extracts priority
from identifier bits 26-28, class from bits 16-25, type from bits 8-15 and
node id from bits 0-7, and fails with `MalformedIdentifier` when the
extended-frame flag is absent. -/
def decode (f : RawFrame) : Except DecodeError VscpEvent :=
  if f.extended then
    .ok { priority := f.can_id / 2 ^ 26 % 2 ^ 3,
          class_id := f.can_id / 2 ^ 16 % 2 ^ 10,
          type_id := f.can_id / 2 ^ 8 % 2 ^ 8,
          node_id := f.can_id % 2 ^ 8,
          payload := f.data }
  else
    .error .MalformedIdentifier

/-- Modelled from the spec: `encode` of the Frame Codec (spec section 4.1),
whose source module is not among the shipped files.  It packs the fields
into the 29-bit extended identifier with the same bit layout `decode`
extracts, and fails with `PayloadTooLong` when more than 8 data bytes are
supplied. -/
def encode (e : VscpEvent) : Except DecodeError RawFrame :=
  if e.payload.length ≤ 8 then
    .ok { extended := true,
          can_id := e.priority * 2 ^ 26 + e.class_id * 2 ^ 16 +
                      e.type_id * 2 ^ 8 + e.node_id,
          data := e.payload }
  else
    .error .PayloadTooLong

/-- Claim C1: for every event whose fields are within encodable ranges
(priority 0-7, class and type within their identifier bit widths, node id
0-255, payload of at most 8 bytes), decoding the frame produced by `encode`
yields the original event. -/
theorem decode_encode_roundtrip (e : VscpEvent)
    (hp : e.priority ≤ 7) (hc : e.class_id < 2 ^ 10) (ht : e.type_id < 2 ^ 8)
    (hn : e.node_id ≤ 255) (hl : e.payload.length ≤ 8) :
    (encode e).bind decode = .ok e := by
  obtain ⟨p, c, t, n, pl⟩ := e
  dsimp only at hp hc ht hn hl
  simp [encode, hl, Except.bind, decode]
  refine ⟨by omega, by omega, by omega, by omega⟩

/-- Witness for C1 at a concrete event. -/
theorem decode_encode_roundtrip_witness :
    (⟨3, 20, 9, 5, [1, 2, 3]⟩ : VscpEvent).priority ≤ 7 ∧
    (⟨3, 20, 9, 5, [1, 2, 3]⟩ : VscpEvent).class_id < 2 ^ 10 ∧
    (⟨3, 20, 9, 5, [1, 2, 3]⟩ : VscpEvent).type_id < 2 ^ 8 ∧
    (⟨3, 20, 9, 5, [1, 2, 3]⟩ : VscpEvent).node_id ≤ 255 ∧
    (⟨3, 20, 9, 5, [1, 2, 3]⟩ : VscpEvent).payload.length ≤ 8 ∧
    (encode ⟨3, 20, 9, 5, [1, 2, 3]⟩).bind decode = .ok ⟨3, 20, 9, 5, [1, 2, 3]⟩ :=
  ⟨by decide, by decide, by decide, by decide, by decide,
    decode_encode_roundtrip ⟨3, 20, 9, 5, [1, 2, 3]⟩
      (by decide) (by decide) (by decide) (by decide) (by decide)⟩

/-- Claim C2: decoding any frame whose extended-identifier flag is absent
fails with `MalformedIdentifier` and never yields an event. -/
theorem decode_standard_frame_fails (f : RawFrame) (h : f.extended = false) :
    decode f = .error .MalformedIdentifier := by
  simp [decode, h]

/-- Witness for C2 at a concrete standard (11-bit) frame. -/
theorem decode_standard_frame_fails_witness :
    (⟨false, 123, [7]⟩ : RawFrame).extended = false ∧
    decode ⟨false, 123, [7]⟩ = .error .MalformedIdentifier :=
  ⟨rfl, decode_standard_frame_fails ⟨false, 123, [7]⟩ rfl⟩

/-! ### Firmware update session (spec section 4.5) -/

/-- States of the firmware update session state machine. -/
inductive FwState
  | Idle
  | Handshake
  | Transferring
  | Verifying
  | Completed
  | Aborted
deriving DecidableEq, Repr

/-- Modelled from the spec: the per-block acknowledgement wait of the
Firmware Update Session, whose source module is not among the shipped
files.  `ackWithin ack i fuel` is true when block `i`'s acknowledgement
arrives within `fuel` send attempts; `ack i` says whether block `i`'s
acknowledgement ever arrives, so every attempt observes the same answer. -/
def ackWithin (ack : Nat → Bool) (i : Nat) : Nat → Bool
  | 0 => false
  | fuel + 1 => ack i || ackWithin ack i fuel

/-- Modelled from the spec: the `Transferring` state of the Firmware Update
Session, whose source module is not among the shipped files.  `fwGo ack r rem i`
transfers blocks `i, i+1, ...` while `rem` blocks remain, recording the index
of each block whose transfer is initiated (per-block retransmissions repeat
the same index within `ackWithin`'s budget of `r + 1` attempts and do not
advance the index).  A block whose acknowledgement never arrives within the
retry budget aborts the session; exhausting the blocks completes it. -/
def fwGo (ack : Nat → Bool) (r : Nat) : Nat → Nat → List Nat × FwState
  | 0, _ => ([], .Completed)
  | rem + 1, i =>
    if ackWithin ack i (r + 1) then
      let res := fwGo ack r rem (i + 1)
      (i :: res.1, res.2)
    else
      ([i], .Aborted)

/-- Modelled from the spec: a whole block-transfer phase over `n` blocks with
per-block retry limit `r`, starting at block 0. -/
def fwTransfer (ack : Nat → Bool) (r n : Nat) : List Nat × FwState :=
  fwGo ack r n 0

theorem ackWithin_succ (ack : Nat → Bool) (i : Nat) :
    ∀ fuel, ackWithin ack i (fuel + 1) = ack i := by
  intro fuel
  induction fuel with
  | zero => simp [ackWithin]
  | succ f ih => rw [ackWithin, ih, Bool.or_self]

theorem fwGo_stuck_at (ack : Nat → Bool) (r k : Nat) (hk : ack k = false) :
    ∀ rem i, (∀ j, i ≤ j → j < k → ack j = true) → i ≤ k → k < i + rem →
      fwGo ack r rem i = (List.range' i (k - i + 1), .Aborted) := by
  intro rem
  induction rem with
  | zero => intro i _ hik hki; omega
  | succ m ih =>
    intro i hprev hik hki
    rcases Nat.eq_or_lt_of_le hik with heq | hlt
    · subst heq
      rw [fwGo, ackWithin_succ, hk]
      simp [List.range'_succ]
    · have hi : ack i = true := hprev i le_rfl hlt
      rw [fwGo, ackWithin_succ, hi]
      have hrec := ih (i + 1) (fun j h1 h2 => hprev j (by omega) h2) hlt (by omega)
      rw [if_pos rfl, hrec]
      have hlen : k - i + 1 = (k - (i + 1) + 1) + 1 := by omega
      rw [hlen]
      simp [List.range'_succ]

/-- Claim C3: if block `k`'s acknowledgement never arrives, no block of index
greater than `k` is ever sent, the blocks that are sent are sent in strictly
increasing index order, and the session terminates in `Aborted`. -/
theorem fw_block_ack_never_arrives (ack : Nat → Bool) (r n k : Nat)
    (hprev : ∀ j, j < k → ack j = true) (hk : ack k = false) (hkn : k < n) :
    (∀ b ∈ (fwTransfer ack r n).1, b ≤ k) ∧
    (fwTransfer ack r n).1.Sorted (· < ·) ∧
    (fwTransfer ack r n).2 = .Aborted := by
  have hchar : fwTransfer ack r n = (List.range' 0 (k + 1), .Aborted) := by
    have := fwGo_stuck_at ack r k hk n 0 (fun j _ h2 => hprev j h2)
      (Nat.zero_le k) (by omega)
    simpa [fwTransfer] using this
  rw [hchar]
  refine ⟨?_, ?_, rfl⟩
  · intro b hb
    rw [← List.range_eq_range'] at hb
    exact Nat.lt_succ_iff.mp (List.mem_range.mp hb)
  · rw [← List.range_eq_range']
    exact List.sorted_lt_range (k + 1)

/-- Witness for C3: blocks 0 and 1 are acknowledged, block 2 never is, out of
5 blocks with the default per-block retry limit 3. -/
theorem fw_block_ack_never_arrives_witness :
    (∀ j, j < 2 → (fun j => decide (j < 2)) j = true) ∧
    (fun j => decide (j < 2)) 2 = false ∧ 2 < 5 ∧
    ((∀ b ∈ (fwTransfer (fun j => decide (j < 2)) 3 5).1, b ≤ 2) ∧
     (fwTransfer (fun j => decide (j < 2)) 3 5).1.Sorted (· < ·) ∧
     (fwTransfer (fun j => decide (j < 2)) 3 5).2 = .Aborted) :=
  ⟨by decide, by decide, by decide,
    fw_block_ack_never_arrives (fun j => decide (j < 2)) 3 5 2
      (by decide) (by decide) (by decide)⟩

/-! ### Register session (spec section 4.4) -/

/-- Terminal failure reasons of a register session. -/
inductive RegReason
  | Timeout
  | VerifyMismatch
deriving DecidableEq, Repr

/-- Final result of a register session. -/
inductive RegResult
  | Completed (v : Nat)
  | Failed (r : RegReason)
deriving DecidableEq, Repr

/-- Modelled from the spec: the read loop of the Register Session, whose
source module is not among the shipped files.  `regReadGo reply fuel attempts`
performs up to `fuel` further request attempts, `attempts` having already been
made; `reply a` is the correlated reply (if any) observed within attempt `a`'s
deadline window.  A missing reply expires the deadline and re-enters
`Requesting` while attempts remain; an exhausted budget fails with
`Timeout`.  The pair returned is (total attempts made, final result). -/
def regReadGo (reply : Nat → Option Nat) : Nat → Nat → Nat × RegResult
  | 0, attempts => (attempts, .Failed .Timeout)
  | fuel + 1, attempts =>
    match reply attempts with
    | some v => (attempts + 1, .Completed v)
    | none => regReadGo reply fuel (attempts + 1)

/-- Modelled from the spec: a whole register read with retry limit
`retryLimit`, so an attempt budget of `retryLimit + 1`. -/
def regRead (reply : Nat → Option Nat) (retryLimit : Nat) : Nat × RegResult :=
  regReadGo reply (retryLimit + 1) 0

theorem regReadGo_no_reply (reply : Nat → Option Nat)
    (h : ∀ a, reply a = none) :
    ∀ fuel att, regReadGo reply fuel att = (att + fuel, .Failed .Timeout) := by
  intro fuel
  induction fuel with
  | zero => intro att; rfl
  | succ f ih =>
    intro att
    rw [regReadGo]
    rw [h att]
    rw [ih (att + 1)]
    have : att + 1 + f = att + (f + 1) := by omega
    rw [this]

/-- Claim C4: a register read that never receives a correlated reply fails
with `Timeout` after exactly `retryLimit + 1` request attempts and makes no
further attempts afterwards. -/
theorem reg_read_timeout (reply : Nat → Option Nat) (retryLimit : Nat)
    (h : ∀ a, reply a = none) :
    regRead reply retryLimit = (retryLimit + 1, .Failed .Timeout) := by
  have := regReadGo_no_reply reply h (retryLimit + 1) 0
  simpa [regRead] using this

/-- Witness for C4 at the default retry limit 3: exactly 4 attempts. -/
theorem reg_read_timeout_witness :
    (∀ a : Nat, (fun _ : Nat => (none : Option Nat)) a = none) ∧
    regRead (fun _ : Nat => none) 3 = (4, .Failed .Timeout) :=
  ⟨fun _ => rfl, reg_read_timeout (fun _ => none) 3 (fun _ => rfl)⟩

/-- What arrives during a write attempt's deadline window: nothing, or the
value read back by the follow-up verify-read. -/
inductive WriteReply
  | NoReply
  | ReadBack (v : Nat)
deriving DecidableEq, Repr

/-- Modelled from the spec: the write-then-verify loop of the Register
Session, whose source module is not among the shipped files.  Attempt `a`
sends the write command and, on acknowledgement, the follow-up verify-read;
`oracle a` is what that attempt observes.  A missing reply expires the
deadline and retries while attempts remain; a read-back equal to the value
written completes; a read-back that differs is a data-integrity failure,
terminal with `VerifyMismatch` and never retried.  The pair returned is
(total attempts made, final result). -/
def regWriteGo (value : Nat) (oracle : Nat → WriteReply) :
    Nat → Nat → Nat × RegResult
  | 0, attempts => (attempts, .Failed .Timeout)
  | fuel + 1, attempts =>
    match oracle attempts with
    | .ReadBack v =>
      if v = value then (attempts + 1, .Completed v)
      else (attempts + 1, .Failed .VerifyMismatch)
    | .NoReply => regWriteGo value oracle fuel (attempts + 1)

/-- Modelled from the spec: a whole verified register write with retry limit
`retryLimit`, so an attempt budget of `retryLimit + 1`. -/
def regWrite (value : Nat) (oracle : Nat → WriteReply) (retryLimit : Nat) :
    Nat × RegResult :=
  regWriteGo value oracle (retryLimit + 1) 0

theorem regWriteGo_mismatch (value : Nat) (oracle : Nat → WriteReply) (a v : Nat)
    (hr : oracle a = .ReadBack v) (hv : v ≠ value) :
    ∀ fuel att, att ≤ a → a < att + fuel →
      (∀ b, att ≤ b → b < a → oracle b = .NoReply) →
      regWriteGo value oracle fuel att = (a + 1, .Failed .VerifyMismatch) := by
  intro fuel
  induction fuel with
  | zero => intro att h1 h2 _; omega
  | succ f ih =>
    intro att h1 h2 hnone
    rcases Nat.eq_or_lt_of_le h1 with heq | hlt
    · subst heq
      rw [regWriteGo, hr]
      simp [hv]
    · rw [regWriteGo, hnone att le_rfl hlt]
      exact ih (att + 1) hlt (by omega) (fun b hb1 hb2 => hnone b (by omega) hb2)

/-- Claim C7: a register write whose follow-up verify-read returns a value
different from the value written ends with `Failed VerifyMismatch` on that
very attempt and is never retried afterwards: the attempt count stops at
`a + 1` even though retry budget remains. -/
theorem reg_write_verify_mismatch (value : Nat) (oracle : Nat → WriteReply)
    (retryLimit a v : Nat)
    (hnone : ∀ b, b < a → oracle b = .NoReply)
    (hr : oracle a = .ReadBack v) (hv : v ≠ value) (ha : a ≤ retryLimit) :
    regWrite value oracle retryLimit = (a + 1, .Failed .VerifyMismatch) :=
  regWriteGo_mismatch value oracle a v hr hv (retryLimit + 1) 0
    (Nat.zero_le a) (by omega) (fun b _ hb => hnone b hb)

/-- Witness for C7: the verify-read of the very first attempt returns 9 for a
write of 5; the session fails with `VerifyMismatch` after that one attempt. -/
theorem reg_write_verify_mismatch_witness :
    (∀ b : Nat, b < 0 → (fun _ : Nat => WriteReply.ReadBack 9) b = .NoReply) ∧
    (fun _ : Nat => WriteReply.ReadBack 9) 0 = .ReadBack 9 ∧ 9 ≠ 5 ∧ 0 ≤ 3 ∧
    regWrite 5 (fun _ : Nat => WriteReply.ReadBack 9) 3 =
      (1, .Failed .VerifyMismatch) :=
  ⟨fun b hb => absurd hb (Nat.not_lt_zero b), rfl, by decide, by decide,
    reg_write_verify_mismatch 5 (fun _ => .ReadBack 9) 3 0 9
      (fun b hb => absurd hb (Nat.not_lt_zero b)) rfl (by decide) (by decide)⟩

/-! ### Session manager (spec section 4.5, last clause) -/

/-- The two session flavours that can own a target node. -/
inductive SessionKind
  | FirmwareUpdate
  | Register
deriving DecidableEq, Repr

/-- Error kinds surfaced when starting a session. -/
inductive ErrorKind
  | SessionBusy
deriving DecidableEq, Repr

/-- An active session registered with the manager.  `sessionState` is the
session's internal state, abstracted to a number here; the claim only needs
that it is left untouched by a rejected second start. -/
structure SessionEntry where
  node_id : Nat
  kind : SessionKind
  sessionState : Nat
deriving DecidableEq, Repr

/-- Modelled from the spec: session admission, whose source module is not
among the shipped files.  At most one firmware-update or register session may
be active per target node id; a second start on a busy node is rejected
immediately with `SessionBusy` and the manager (hence the already-active
session) is left unchanged. -/
def startSession (mgr : List SessionEntry) (nid : Nat) (k : SessionKind) :
    Except ErrorKind Unit × List SessionEntry :=
  if mgr.any (fun e => e.node_id == nid) then
    (.error .SessionBusy, mgr)
  else
    (.ok (), mgr ++ [{ node_id := nid, kind := k, sessionState := 0 }])

/-- Claim C6: starting a session on a node that already has an active session
(of either kind) is rejected immediately with `SessionBusy`, and the manager
— including the state of the already-active session — is unchanged. -/
theorem start_session_busy (mgr : List SessionEntry) (nid : Nat) (k : SessionKind)
    (h : ∃ e ∈ mgr, e.node_id = nid) :
    startSession mgr nid k = (.error .SessionBusy, mgr) := by
  unfold startSession
  rw [if_pos]
  obtain ⟨e, he, hid⟩ := h
  exact List.any_eq_true.mpr ⟨e, he, by simp [hid]⟩

/-- Witness for C6: node 7 already runs a register session; starting a
firmware update on node 7 is rejected and the manager is unchanged. -/
theorem start_session_busy_witness :
    (∃ e ∈ [(⟨7, SessionKind.Register, 42⟩ : SessionEntry)], e.node_id = 7) ∧
    startSession [⟨7, SessionKind.Register, 42⟩] 7 .FirmwareUpdate =
      (.error .SessionBusy, [⟨7, SessionKind.Register, 42⟩]) :=
  ⟨⟨⟨7, SessionKind.Register, 42⟩, by simp, rfl⟩,
    start_session_busy [⟨7, SessionKind.Register, 42⟩] 7 .FirmwareUpdate
      ⟨⟨7, SessionKind.Register, 42⟩, by simp, rfl⟩⟩

/-! ### Discovery registry (spec section 4.3) -/

/-- How a node sighting was obtained. -/
inductive DiscoverySource
  | SCAN
  | HEARTBEAT
  | ANNOUNCE
deriving DecidableEq, Repr

/-- A discovery registry entry (spec section 3, Node). -/
structure Node where
  node_id : Nat
  guid : Option (List Nat)
  last_seen : Nat
  discovery_source : DiscoverySource
deriving DecidableEq, Repr

/-- One sighting of a node: id, resolved GUID if any, capture timestamp, and
whether it came from an active scan or a passive announcement/heartbeat. -/
structure Sighting where
  node_id : Nat
  guid : Option (List Nat)
  timestamp : Nat
  source : DiscoverySource
deriving DecidableEq, Repr

/-- Modelled from the spec: the update applied to an existing registry entry
by a new sighting of the same id — refresh `last_seen`, fill `guid` once
resolved (last writer wins when the sighting carries one), record the source.
The discovery engine's source module is not among the shipped files. -/
def refresh (s : Sighting) (n : Node) : Node :=
  if n.node_id == s.node_id then
    { n with last_seen := s.timestamp,
             guid := if s.guid.isSome then s.guid else n.guid,
             discovery_source := s.source }
  else n

/-- Modelled from the spec: processing one sighting against the registry,
whose source module is not among the shipped files.  An entry is created on
first sighting and updated on every subsequent one; entries are never
deleted — a sighting only updates or appends. -/
def sight (reg : List Node) (s : Sighting) : List Node :=
  if reg.any (fun n => n.node_id == s.node_id) then
    reg.map (refresh s)
  else
    reg ++ [{ node_id := s.node_id, guid := s.guid,
              last_seen := s.timestamp, discovery_source := s.source }]

/-- Number of registry entries carrying a given node id. -/
def idCount (reg : List Node) (nid : Nat) : Nat :=
  reg.countP (fun n => n.node_id == nid)

theorem refresh_node_id (s : Sighting) (n : Node) :
    (refresh s n).node_id = n.node_id := by
  unfold refresh
  split <;> rfl

theorem idCount_sight (reg : List Node) (s : Sighting)
    (h : idCount reg s.node_id ≤ 1) : idCount (sight reg s) s.node_id = 1 := by
  unfold idCount sight
  by_cases hmem : reg.any (fun n => n.node_id == s.node_id) = true
  · rw [if_pos hmem, List.countP_map]
    have heq : reg.countP ((fun n => n.node_id == s.node_id) ∘ refresh s) =
        reg.countP (fun n => n.node_id == s.node_id) :=
      List.countP_congr (fun n _ => by
        simp [Function.comp, refresh_node_id])
    rw [heq]
    have hpos : 0 < reg.countP (fun n => n.node_id == s.node_id) := by
      rw [List.countP_pos_iff]
      exact List.any_eq_true.mp hmem
    unfold idCount at h
    omega
  · rw [if_neg hmem, List.countP_append]
    have hzero : reg.countP (fun n => n.node_id == s.node_id) = 0 := by
      rw [List.countP_eq_zero]
      intro n hn hcontra
      exact hmem (List.any_eq_true.mpr ⟨n, hn, hcontra⟩)
    simp [hzero]

theorem sight_last_seen (reg : List Node) (s : Sighting) :
    ∀ n ∈ sight reg s, n.node_id = s.node_id → n.last_seen = s.timestamp := by
  unfold sight
  by_cases hmem : reg.any (fun n => n.node_id == s.node_id) = true
  · rw [if_pos hmem]
    intro n hn hid
    obtain ⟨m, hm, rfl⟩ := List.mem_map.mp hn
    unfold refresh at hid ⊢
    by_cases hc : (m.node_id == s.node_id) = true
    · rw [if_pos hc]
    · rw [if_neg hc] at hid
      exact absurd (by simp [hid]) hc
  · rw [if_neg hmem]
    intro n hn hid
    rcases List.mem_append.mp hn with hl | hr
    · exact absurd (List.any_eq_true.mpr ⟨n, hl, by simp [hid]⟩) hmem
    · simp only [List.mem_singleton] at hr
      subst hr
      rfl

theorem sight_preserves_ids (reg : List Node) (s : Sighting) :
    ∀ m ∈ reg, ∃ n ∈ sight reg s, n.node_id = m.node_id := by
  intro m hm
  unfold sight
  by_cases hmem : reg.any (fun n => n.node_id == s.node_id) = true
  · rw [if_pos hmem]
    exact ⟨refresh s m, List.mem_map_of_mem _ hm, refresh_node_id s m⟩
  · rw [if_neg hmem]
    exact ⟨m, List.mem_append_left _ hm, rfl⟩

theorem foldl_sight_preserves_ids (ss : List Sighting) :
    ∀ reg : List Node, ∀ m ∈ reg,
      ∃ n ∈ ss.foldl sight reg, n.node_id = m.node_id := by
  induction ss with
  | nil => intro reg m hm; exact ⟨m, hm, rfl⟩
  | cons s tl ih =>
    intro reg m hm
    obtain ⟨n, hn, hid⟩ := sight_preserves_ids reg s m hm
    obtain ⟨n', hn', hid'⟩ := ih (sight reg s) n hn
    exact ⟨n', by simpa using hn', hid'.trans hid⟩

/-- Claim C5: for any mix of scan and passive sightings of one node id, the
registry ends with exactly one entry for that id, that entry's `last_seen` is
the latest sighting's timestamp, and no already-present entry is ever
removed.  The precondition is the invariant the registry always satisfies:
the id occurs at most once. -/
theorem discovery_registry_unique (reg : List Node) (nid : Nat)
    (ss : List Sighting) (hinv : idCount reg nid ≤ 1) (hne : ss ≠ [])
    (hall : ∀ s ∈ ss, s.node_id = nid) :
    idCount (ss.foldl sight reg) nid = 1 ∧
    (∀ n ∈ ss.foldl sight reg, n.node_id = nid →
      n.last_seen = (ss.getLast hne).timestamp) ∧
    (∀ m ∈ reg, ∃ n ∈ ss.foldl sight reg, n.node_id = m.node_id) := by
  induction ss using List.reverseRecOn with
  | nil => exact absurd rfl hne
  | append_singleton init s ih =>
    have hs : s.node_id = nid := hall s (List.mem_append_right _ (by simp))
    have hall' : ∀ t ∈ init, t.node_id = nid :=
      fun t ht => hall t (List.mem_append_left _ ht)
    have hfold : (init ++ [s]).foldl sight reg = sight (init.foldl sight reg) s := by
      simp [List.foldl_append]
    have hinv' : idCount (init.foldl sight reg) nid ≤ 1 := by
      by_cases hinit : init = []
      · subst hinit
        simpa using hinv
      · exact le_of_eq (ih hinit hall').1
    have hlast : (init ++ [s]).getLast hne = s := by
      simp
    refine ⟨?_, ?_, ?_⟩
    · rw [hfold, ← hs]
      exact idCount_sight _ s (by rw [hs]; exact hinv')
    · intro n hn hid
      rw [hlast]
      rw [hfold] at hn
      exact sight_last_seen _ s n hn (hid.trans hs.symm)
    · exact foldl_sight_preserves_ids (init ++ [s]) reg

/-- Witness for C5: two sightings of node 5 (a scan hit at time 10, then a
heartbeat with a resolved GUID at time 20) against an empty registry. -/
theorem discovery_registry_unique_witness :
    idCount ([] : List Node) 5 ≤ 1 ∧
    ([(⟨5, none, 10, .SCAN⟩ : Sighting), ⟨5, some [1], 20, .HEARTBEAT⟩] ≠ []) ∧
    (∀ s ∈ [(⟨5, none, 10, .SCAN⟩ : Sighting), ⟨5, some [1], 20, .HEARTBEAT⟩],
      s.node_id = 5) ∧
    (idCount ([(⟨5, none, 10, .SCAN⟩ : Sighting),
        ⟨5, some [1], 20, .HEARTBEAT⟩].foldl sight []) 5 = 1 ∧
     (∀ n ∈ [(⟨5, none, 10, .SCAN⟩ : Sighting),
        ⟨5, some [1], 20, .HEARTBEAT⟩].foldl sight [],
        n.node_id = 5 →
        n.last_seen = ([(⟨5, none, 10, .SCAN⟩ : Sighting),
          ⟨5, some [1], 20, .HEARTBEAT⟩].getLast (by decide)).timestamp) ∧
     (∀ m ∈ ([] : List Node),
        ∃ n ∈ [(⟨5, none, 10, .SCAN⟩ : Sighting),
          ⟨5, some [1], 20, .HEARTBEAT⟩].foldl sight [],
          n.node_id = m.node_id)) :=
  ⟨by decide, by decide, by decide,
    discovery_registry_unique [] 5
      [⟨5, none, 10, .SCAN⟩, ⟨5, some [1], 20, .HEARTBEAT⟩]
      (by decide) (by decide) (by decide)⟩

/-! ### Application entry point (VSCP4CANToolBox.pyw) -/

/-- The observable lifecycle effects of `main` in `VSCP4CANToolBox.pyw`. -/
inductive MainEffect
  | server_start
  | tae_start
  | app_mainloop
  | tae_stop
  | server_stop
deriving DecidableEq, Repr

/-- `server.start()`: appends its effect onto the execution trace. -/
def serverStart (t : List MainEffect) : List MainEffect := t ++ [.server_start]

/-- `tae.start()`: appends its effect onto the execution trace. -/
def taeStart (t : List MainEffect) : List MainEffect := t ++ [.tae_start]

/-- `app.mainloop()` (blocking GUI event loop): appends its effect. -/
def appMainloop (t : List MainEffect) : List MainEffect := t ++ [.app_mainloop]

/-- `tae.stop()`: appends its effect onto the execution trace. -/
def taeStop (t : List MainEffect) : List MainEffect := t ++ [.tae_stop]

/-- `server.stop()`: appends its effect onto the execution trace. -/
def serverStop (t : List MainEffect) : List MainEffect := t ++ [.server_stop]

/-- Shallow embedding of `main` in `VSCP4CANToolBox.pyw`: the straight-line
statement sequence `server.start(); tae.start(); app.mainloop(); tae.stop();
server.stop()` threaded over the execution trace. -/
def mainTrace (t : List MainEffect) : List MainEffect :=
  serverStop (taeStop (appMainloop (taeStart (serverStart t))))

/-- The shutdown effect paired with each startup effect. -/
def shutdownOf : MainEffect → MainEffect
  | .server_start => .server_stop
  | .tae_start => .tae_stop
  | e => e

/-- Claim C8: every execution of `main` produces exactly the effect order
server.start, tae.start, app.mainloop, tae.stop, server.stop; the shutdown
phase is the startup phase reversed, and the backend server is running
(started before, stopped after) for the whole GUI event loop. -/
theorem main_lifecycle_order :
    mainTrace [] = [.server_start, .tae_start, .app_mainloop,
      .tae_stop, .server_stop] ∧
    mainTrace [] = [MainEffect.server_start, MainEffect.tae_start] ++
      [MainEffect.app_mainloop] ++
      (([MainEffect.server_start, MainEffect.tae_start].reverse).map shutdownOf) ∧
    (mainTrace []).indexOf MainEffect.server_start <
      (mainTrace []).indexOf MainEffect.app_mainloop ∧
    (mainTrace []).indexOf MainEffect.app_mainloop <
      (mainTrace []).indexOf MainEffect.server_stop := by
  refine ⟨rfl, rfl, ?_, ?_⟩ <;> decide

/-! ### install.sh -/

/-- The filesystem/environment facts `install.sh` branches on. -/
structure FsState where
  has_python3 : Bool
  venv_exists : Bool
  has_requirements : Bool
deriving DecidableEq, Repr

/-- The observable steps of `install.sh`. -/
inductive InstallEffect
  | echo_no_python
  | create_venv
  | echo_venv_fail
  | activate_env
  | upgrade_pip
  | install_requirements
  | warn_no_requirements
  | deactivate_env
deriving DecidableEq, Repr

/-- Shallow embedding of `install.sh`: (1) exit 1 if python3 is missing;
(2) run `python3 -m venv .venv` only when `.venv` does not exist, exiting 1
if that fails (`venv_ok` models its success); (3) activate; (4) upgrade pip
and install requirements when `requirements.txt` exists, else warn;
(5) deactivate.  Returns (effects in order, exit status, final state). -/
def installScript (fs : FsState) (venv_ok : Bool) :
    List InstallEffect × Nat × FsState :=
  if !fs.has_python3 then
    ([.echo_no_python], 1, fs)
  else if !fs.venv_exists && !venv_ok then
    ([.create_venv, .echo_venv_fail], 1, fs)
  else
    let pre : List InstallEffect :=
      if !fs.venv_exists then [.create_venv] else []
    let fs1 : FsState := { fs with venv_exists := true }
    let eff := pre ++ [.activate_env, .upgrade_pip] ++
      (if fs.has_requirements then [.install_requirements]
       else [.warn_no_requirements]) ++ [.deactivate_env]
    (eff, 0, fs1)

/-- Claim C9: if `.venv` already exists when `install.sh` runs, `python3 -m
venv` is not invoked, and it is not invoked on a following run either —
repeated runs are idempotent with respect to virtual-environment creation. -/
theorem install_venv_created_at_most_once (fs : FsState) (ok ok' : Bool)
    (h : fs.venv_exists = true) :
    InstallEffect.create_venv ∉ (installScript fs ok).1 ∧
    InstallEffect.create_venv ∉
      (installScript (installScript fs ok).2.2 ok').1 := by
  obtain ⟨p, v, r⟩ := fs
  revert h
  cases p <;> cases v <;> cases r <;> cases ok <;> cases ok' <;> decide

/-- Witness for C9 at a concrete state with `.venv` present. -/
theorem install_venv_created_at_most_once_witness :
    (⟨true, true, true⟩ : FsState).venv_exists = true ∧
    (InstallEffect.create_venv ∉ (installScript ⟨true, true, true⟩ true).1 ∧
     InstallEffect.create_venv ∉
       (installScript (installScript ⟨true, true, true⟩ true).2.2 false).1) :=
  ⟨rfl, install_venv_created_at_most_once ⟨true, true, true⟩ true false rfl⟩

/-- Claim C10: when python3 is not on the PATH, `install.sh` exits with
status 1 having only printed the error: no virtual environment is created,
no pip upgrade runs, no dependencies are installed, and the filesystem state
is unchanged. -/
theorem install_no_python3_exits_first (fs : FsState) (ok : Bool)
    (h : fs.has_python3 = false) :
    installScript fs ok = ([.echo_no_python], 1, fs) := by
  unfold installScript
  rw [h]
  rfl

/-- Witness for C10 at a concrete state without python3. -/
theorem install_no_python3_exits_first_witness :
    (⟨false, false, true⟩ : FsState).has_python3 = false ∧
    installScript ⟨false, false, true⟩ true =
      ([.echo_no_python], 1, ⟨false, false, true⟩) :=
  ⟨rfl, install_no_python3_exits_first ⟨false, false, true⟩ true rfl⟩

end VSCP4CAN
